import Mathlib

/-!
Verification of the "Reopen Closed Tabs" module of `src/JS/nug.uc.js`
(TabManager + ReopenClosedTabs). The JavaScript objects are embedded as
Lean structures, the DOM row list as a list of (entry, selected-marker)
pairs, and the external side effects of the restore protocol as an
explicit effect trace with try/catch modelled by an escaped-exception
flag.
-/

/-- One navigation history entry inside a closed tab's session state
(`tab.state.entries[i]`, fields `url` and `title`, either may be absent). -/
structure HistoryEntry where
  url : Option String := none
  title : Option String := none
deriving DecidableEq, Repr

/-- The `state` blob of a closed-tab session record:
`{entries, pinned, userContextId, zenWorkspace}` as read by `reopenTab`. -/
structure TabState where
  entries : List HistoryEntry := []
  pinned : Bool := false
  userContextId : Option Nat := none
  zenWorkspace : Option String := none
deriving DecidableEq, Repr

/-- A record returned by `SessionStore.getClosedTabData(window)`:
`{title, closedAt, image, state, closedInTabGroupId}` as the source reads it. -/
structure ClosedTabRecord where
  title : Option String := none
  closedAt : Int := 0
  image : Option String := none
  state : TabState := {}
  closedInTabGroupId : Option String := none
deriving DecidableEq, Repr

/-- The normalized tab-entry object built by `TabManager.getRecentlyClosedTabs`
and `TabManager.getOpenTabs`. JavaScript objects of the two variants carry
different fields; absent fields are `none` / `false` here (undefined in JS). -/
structure TabEntry where
  url : Option String := none
  title : Option String := none
  isClosed : Bool := false
  sessionData : Option ClosedTabRecord := none
  sessionIndex : Option Nat := none
  faviconUrl : Option String := none
  closedAt : Option Int := none
  isPinned : Bool := false
  isEssential : Bool := false
  workspace : Option String := none
  folder : Option String := none
  tabElement : Option Nat := none
  lastAccessed : Option Int := none
deriving DecidableEq, Repr

/-- JavaScript `a || b` on two possibly-absent strings: the empty string is
falsy, so it falls through to `b` (used for `tab.title || entries[0]?.title`). -/
def jsOrStr (a b : Option String) : Option String :=
  match a with
  | some s => if s = "" then b else some s
  | none => b

/-- JavaScript `String.prototype.toLowerCase`, modelled characterwise. -/
def jsToLower (s : String) : String :=
  String.mk (s.data.map Char.toLower)

/-- JavaScript `s.includes(q)`: `q` occurs as a contiguous substring of `s`. -/
def jsIncludes (s q : String) : Bool :=
  decide (q.data <:+: s.data)

/-- The entry built from closed-tab record `tab` at store position `index`
(the body of the `.map((tab, index) => ...)` in `getRecentlyClosedTabs`). -/
def closedTabEntryOf (index : Nat) (tab : ClosedTabRecord) : TabEntry :=
  { url := (tab.state.entries.head?).bind HistoryEntry.url
    title := jsOrStr tab.title ((tab.state.entries.head?).bind HistoryEntry.title)
    isClosed := true
    sessionData := some tab
    sessionIndex := some index
    faviconUrl := tab.image
    closedAt := some tab.closedAt }

/-- The `.map((tab, index) => ...)` pass of `getRecentlyClosedTabs`, with the
running store index made explicit. -/
def mapClosedFrom (i : Nat) : List ClosedTabRecord → List TabEntry
  | [] => []
  | r :: rs => closedTabEntryOf i r :: mapClosedFrom (i + 1) rs

/-- The closedAt key the comparator `(a, b) => b.closedAt - a.closedAt` reads
from an entry (always present on entries built by `closedTabEntryOf`). -/
def entryClosedAt (e : TabEntry) : Int :=
  e.closedAt.getD 0

/-- The ordering realised by the JavaScript sort comparator
`(a, b) => b.closedAt - a.closedAt`: `a` may come before `b` iff
`b.closedAt ≤ a.closedAt` (newest first). -/
def closedDesc (a b : TabEntry) : Prop :=
  entryClosedAt b ≤ entryClosedAt a

instance : DecidableRel closedDesc :=
  fun a b => inferInstanceAs (Decidable (entryClosedAt b ≤ entryClosedAt a))

instance : IsTotal TabEntry closedDesc :=
  ⟨fun a b => le_total (entryClosedAt b) (entryClosedAt a)⟩

instance : IsTrans TabEntry closedDesc :=
  ⟨fun _ _ _ h1 h2 => le_trans h2 h1⟩

/-- The pure mapping-and-sorting pass of `TabManager.getRecentlyClosedTabs`:
map each record to a closed-variant entry carrying its store index, then sort
descending by `closedAt`. -/
def closedTabEntries (records : List ClosedTabRecord) : List TabEntry :=
  List.insertionSort closedDesc (mapClosedFrom 0 records)

/-- Behaviour of the `SessionStore` collaborator as `getRecentlyClosedTabs`
and `removeClosedTab` observe it: whether `getClosedTabData` /
`forgetClosedTab` exist, whether each call throws, and the stored records. -/
structure SessionStoreEnv where
  getAvailable : Bool := true
  getThrows : Bool := false
  forgetAvailable : Bool := true
  forgetThrows : Bool := false
  records : List ClosedTabRecord := []
deriving Repr

/-- Body of the `try` block of `getRecentlyClosedTabs`: `.error` means an
exception escapes to the surrounding `catch`. -/
def getRecentlyClosedTabsTry (env : SessionStoreEnv) : Except Unit (List TabEntry) :=
  if env.getAvailable then
    if env.getThrows then .error ()
    else .ok (closedTabEntries env.records)
  else .ok []

/-- `TabManager.getRecentlyClosedTabs`: the whole body sits in one
`try { ... } catch (e) { debugError(...); return [] }`. -/
def getRecentlyClosedTabs (env : SessionStoreEnv) : List TabEntry :=
  match getRecentlyClosedTabsTry env with
  | .ok l => l
  | .error _ => []

/-- Observable side effects of the restore protocol on the external
collaborators (tab creation, selection, session store, workspaces, folders),
plus `debugError` logging. -/
inductive Effect where
  | switchTabIfNeeded (tabId : Nat)
  | addTab (url : String) (userContextId : Nat)
  | selectTab
  | forgetClosedTab (sessionIndex : Option Nat)
  | changeWorkspace (id : String)
  | moveTabToWorkspace (id : String)
  | pinTab
  | addTabsToFolder (id : String)
  | logError
deriving DecidableEq, Repr

/-- `TabManager.removeClosedTab`: its own `try`/`catch` around
`SessionStore.forgetClosedTab(window, tabData.sessionIndex)`, logging when the
service is missing or the call throws. Never lets an exception escape. -/
def removeClosedTabEffects (env : SessionStoreEnv) (sessionIndex : Option Nat) : List Effect :=
  if env.forgetAvailable then
    if env.forgetThrows then [.logError] else [.forgetClosedTab sessionIndex]
  else [.logError]

/-- `TabManager._getFolderBreadcrumbs`: walk folder-parent links while the
group is a zen folder, `unshift`-ing labels, then join with " / ". The chain
is listed innermost group first; each node is (label, isZenFolder). -/
def getFolderBreadcrumbs (chain : List (String × Bool)) : String :=
  String.intercalate " / " (((chain.takeWhile (fun g => g.2)).map (fun g => g.1)).reverse)

/-- A `<tab>` element as `TabManager.getOpenTabs` reads it: attributes,
linked browser URL/title, pinned state, workspace id, folder-group chain
(innermost first), favicon and last-access time. -/
structure OpenTab where
  id : Nat := 0
  zenEmptyTab : Bool := false
  closing : Bool := false
  zenEssential : Bool := false
  url : String := ""
  contentTitle : Option String := none
  label : String := ""
  pinned : Bool := false
  workspaceId : Option String := none
  group : List (String × Bool) := []
  image : Option String := none
  lastAccessed : Int := 0
deriving DecidableEq, Repr

/-- Environment of `getOpenTabs`: whether the enumeration throws, the stored
workspace tabs, the essential tabs, and the id-to-name workspace table. -/
structure OpenTabsEnv where
  enumThrows : Bool := false
  workspaceTabs : List OpenTab := []
  essentialTabs : List OpenTab := []
  workspaces : List (String × String) := []
deriving Repr

/-- `gZenWorkspaces.getWorkspaceFromId(id)?.name`. -/
def lookupWorkspaceName (table : List (String × String)) (id : String) : Option String :=
  (table.find? (fun w => w.1 == id)).map (fun w => w.2)

/-- Body of the per-tab loop of `getOpenTabs` building one open-variant entry. -/
def openTabEntry (env : OpenTabsEnv) (t : OpenTab) : TabEntry :=
  let isEssential := t.zenEssential
  let workspaceName :=
    match t.workspaceId with
    | some wid => if wid = "" then none else lookupWorkspaceName env.workspaces wid
    | none => none
  let folderName :=
    match t.group with
    | (_, true) :: _ => some (getFolderBreadcrumbs t.group)
    | _ => none
  { url := some t.url
    title := some (match t.contentTitle with
      | some s => if s = "" then t.label else s
      | none => t.label)
    isClosed := false
    isPinned := t.pinned
    isEssential := isEssential
    workspace := if isEssential then none else workspaceName
    folder := folderName
    faviconUrl := t.image
    tabElement := some t.id
    lastAccessed := some t.lastAccessed }

/-- `TabManager.getOpenTabs`: dedup workspace and essential tabs preserving
first occurrence (the `new Set` spread), skip empty or closing tabs, map the
rest; the surrounding `try`/`catch` returns `[]` when enumeration throws. -/
def getOpenTabs (env : OpenTabsEnv) : List TabEntry :=
  if env.enumThrows then []
  else
    ((env.workspaceTabs ++ env.essentialTabs).eraseDups).filterMap
      (fun t => if t.zenEmptyTab || t.closing then none else some (openTabEntry env t))

/-- Popup state kept by `ReopenClosedTabs`: the `_allTabsCache` field and the
rendered `.reopen-closed-tab-item` rows in document order, each with its
`selected` attribute. -/
structure PanelState where
  cache : List TabEntry := []
  rows : List (TabEntry × Bool) := []
deriving Repr

/-- Render a list of entries as rows, none selected yet. -/
def renderRows (l : List TabEntry) : List (TabEntry × Bool) :=
  l.map (fun t => (t, false))

/-- Putting `selected` on the first rendered item
(`querySelector('.reopen-closed-tab-item')` then `setAttribute`). -/
def markFirstItem : List (TabEntry × Bool) → List (TabEntry × Bool)
  | [] => []
  | r :: rest => (r.1, true) :: rest

/-- `ReopenClosedTabs._populatePanel`: fetch closed tabs always, open tabs
only under the show-open-tabs preference, render closed group then open
group, cache `[...closedTabs, ...openTabs]`, select the first item. -/
def populatePanel (envC : SessionStoreEnv) (envO : OpenTabsEnv) (showOpenTabs : Bool) : PanelState :=
  let closedTabs := getRecentlyClosedTabs envC
  let openTabs := if showOpenTabs then getOpenTabs envO else []
  { cache := closedTabs ++ openTabs
    rows := markFirstItem (renderRows (closedTabs ++ openTabs)) }

/-- The predicate of `_filterTabs`: each of title, url, workspace, folder
(`|| ''` when absent) lowercased must contain the lowercased query. -/
def tabMatches (lowerQuery : String) (tab : TabEntry) : Bool :=
  jsIncludes (jsToLower (tab.title.getD "")) lowerQuery ||
  jsIncludes (jsToLower (tab.url.getD "")) lowerQuery ||
  jsIncludes (jsToLower (tab.workspace.getD "")) lowerQuery ||
  jsIncludes (jsToLower (tab.folder.getD "")) lowerQuery

/-- The `this._allTabsCache.filter(...)` expression of `_filterTabs`. -/
def filterTabs (query : String) (cache : List TabEntry) : List TabEntry :=
  cache.filter (tabMatches (jsToLower query))

/-- `ReopenClosedTabs._filterTabs` as a state step: compute the filtered
list, re-render the closed group then the open group, select the first item;
the cache field is read but never written. -/
def filterStep (query : String) (st : PanelState) : PanelState :=
  let filteredTabs := filterTabs query st.cache
  let closedTabs := filteredTabs.filter (fun t => t.isClosed)
  let openTabs := filteredTabs.filter (fun t => !t.isClosed)
  { cache := st.cache
    rows := markFirstItem (renderRows (closedTabs ++ openTabs)) }

/-- `ReopenClosedTabs._handleRemoveTabClick` restricted to its effect on
`_allTabsCache`: for a closed entry the cache is re-filtered with
`tab !== tabData`; otherwise the cache is untouched. -/
def handleRemoveTab (cache : List TabEntry) (e : TabEntry) : List TabEntry :=
  if e.isClosed then cache.filter (fun t => decide (t ≠ e)) else cache

/-- Environment of `TabManager.reopenTab`: the active workspace id, which
external calls throw, and the folders reachable through
`document.getElementById` (id paired with whether `addTabs` is a function). -/
structure ReopenEnv where
  activeWorkspace : Option String := none
  addTabThrows : Bool := false
  changeWorkspaceThrows : Bool := false
  moveTabThrows : Bool := false
  pinTabThrows : Bool := false
  folderAddThrows : Bool := false
  switchTabThrows : Bool := false
  folders : List (String × Bool) := []
  session : SessionStoreEnv := {}
deriving Repr

/-- `document.getElementById(groupId)` for folder elements: `none` when the
folder no longer exists, otherwise whether it has an `addTabs` function. -/
def lookupFolder (folders : List (String × Bool)) (id : String) : Option Bool :=
  (folders.find? (fun f => f.1 == id)).map (fun f => f.2)

/-- Result of a code fragment inside the `try` block: the effects it emitted
and whether an exception escaped it. -/
abbrev StepResult : Type := List Effect × Bool

/-- Sequencing inside one `try` block: if the first fragment threw, the
continuation never runs (this is what a single surrounding `catch` means). -/
def seqStep (a : StepResult) (k : Unit → StepResult) : StepResult :=
  match a with
  | (es, true) => (es, true)
  | (es, false) =>
    match k () with
    | (es2, threw) => (es ++ es2, threw)

/-- One external call: emits its effect on success, throws without any
observable effect otherwise. -/
def primCall (throws : Bool) (e : Effect) : StepResult :=
  if throws then ([], true) else ([e], false)

/-- Steps (e) of the restore protocol: `if (workspaceId && workspaceId !==
activeWorkspaceId)` then `changeWorkspaceWithID` and `moveTabToWorkspace`. -/
def wsStep (env : ReopenEnv) (ts : TabState) : StepResult :=
  match ts.zenWorkspace with
  | some wid =>
    if wid = "" then ([], false)
    else if env.activeWorkspace = some wid then ([], false)
    else
      seqStep (primCall env.changeWorkspaceThrows (.changeWorkspace wid))
        (fun _ => primCall env.moveTabThrows (.moveTabToWorkspace wid))
  | none => ([], false)

/-- Step (f): `if (tabState.pinned) gBrowser.pinTab(newTab)`. -/
def pinStep (env : ReopenEnv) (ts : TabState) : StepResult :=
  if ts.pinned then primCall env.pinTabThrows .pinTab else ([], false)

/-- Step (g): read `closedInTabGroupId`, look the folder up in the document,
and call `addTabs` only when the element exists and has that function. -/
def folderStep (env : ReopenEnv) (sd : ClosedTabRecord) : StepResult :=
  match sd.closedInTabGroupId with
  | some gid =>
    if gid = "" then ([], false)
    else
      match lookupFolder env.folders gid with
      | some hasAddTabs =>
        if hasAddTabs then primCall env.folderAddThrows (.addTabsToFolder gid)
        else ([], false)
      | none => ([], false)
  | none => ([], false)

/-- The closed-variant branch of `reopenTab`: extract `entries[0]?.url`
(abort with a log when falsy), create the tab, select it, forget the closed
record, then workspace switch + move, pin, folder re-add, final select —
all inside the one surrounding `try`. -/
def closedRestore (env : ReopenEnv) (td : TabEntry) (sd : ClosedTabRecord) : StepResult :=
  match (sd.state.entries.head?).bind HistoryEntry.url with
  | none => ([.logError], false)
  | some u =>
    if u = "" then ([.logError], false)
    else
      seqStep (primCall env.addTabThrows (.addTab u (sd.state.userContextId.getD 0)))
        (fun _ => seqStep ([.selectTab], false)
          (fun _ => seqStep (removeClosedTabEffects env.session td.sessionIndex, false)
            (fun _ => seqStep (wsStep env sd.state)
              (fun _ => seqStep (pinStep env sd.state)
                (fun _ => seqStep (folderStep env sd)
                  (fun _ => ([.selectTab], false)))))))

/-- The `try` block of `TabManager.reopenTab`: open-variant switch, closed
restore, or the bare-url fallback, in source order. -/
def reopenTabTry (env : ReopenEnv) (td : TabEntry) : StepResult :=
  match td.isClosed, td.tabElement with
  | false, some tid => primCall env.switchTabThrows (.switchTabIfNeeded tid)
  | _, _ =>
    match td.isClosed, td.sessionData with
    | true, some sd => closedRestore env td sd
    | _, _ =>
      match td.url with
      | some u =>
        if u = "" then ([.logError], false)
        else
          seqStep (primCall env.addTabThrows (.addTab u 0))
            (fun _ => ([.selectTab], false))
      | none => ([.logError], false)

/-- `TabManager.reopenTab`: the single `catch (e) { debugError(...) }` turns
an escaped exception into a log entry; nothing after the throwing statement
inside the `try` block runs. -/
def reopenTab (env : ReopenEnv) (td : TabEntry) : List Effect :=
  match reopenTabTry env td with
  | (es, true) => es ++ [.logError]
  | (es, false) => es

/-- Index of the first row whose `selected` attribute is set
(`querySelector('.reopen-closed-tab-item[selected]')` in document order),
with an accumulator for the position reached so far. -/
def findSelectedIdxAux : Nat → List (TabEntry × Bool) → Option Nat
  | _, [] => none
  | i, r :: rs => if r.2 then some i else findSelectedIdxAux (i + 1) rs

/-- Index of the first selected row of the rendered list. -/
def findSelectedIdx (rows : List (TabEntry × Bool)) : Option Nat :=
  findSelectedIdxAux 0 rows

/-- Set or clear the `selected` attribute of the row at one index
(out-of-range indices touch nothing). -/
def setMarkL (b : Bool) : Nat → List (TabEntry × Bool) → List (TabEntry × Bool)
  | _, [] => []
  | 0, r :: rs => (r.1, b) :: rs
  | i + 1, r :: rs => r :: setMarkL b i rs

/-- The two navigation keys `_handleSearchKeydown` moves the cursor with. -/
inductive NavKey where
  | down
  | up
deriving DecidableEq, Repr

/-- Which row `_handleSearchKeydown` selects next: `allItems[i+1] ||
allItems[0]` for ArrowDown and `allItems[i-1] ||
allItems[allItems.length-1]` for ArrowUp (an out-of-range JavaScript index
reads `undefined`, so `||` falls back to the wrap target). -/
def navTarget (key : NavKey) (n : Nat) (cur : Option Nat) : Option Nat :=
  match key, cur with
  | .down, some i =>
    if i + 1 < n then some (i + 1)
    else if 0 < n then some 0 else none
  | .down, none => if 0 < n then some 0 else none
  | .up, some i =>
    if 0 < i ∧ i - 1 < n then some (i - 1)
    else if 0 < n then some (n - 1) else none
  | .up, none => if 0 < n then some (n - 1) else none

/-- The ArrowDown / ArrowUp paths of `_handleSearchKeydown`: find the
currently selected row, compute the next one, remove the attribute from the
old row and set it on the new one. -/
def handleNavKeydown (key : NavKey) (rows : List (TabEntry × Bool)) :
    List (TabEntry × Bool) :=
  let cur := findSelectedIdx rows
  let next := navTarget key rows.length cur
  let rows1 :=
    match cur with
    | some i => setMarkL false i rows
    | none => rows
  match next with
  | some j => setMarkL true j rows1
  | none => rows1

/-- Number of rows currently carrying the `selected` marker. -/
def markedCount (rows : List (TabEntry × Bool)) : Nat :=
  (rows.filter (fun r => r.2)).length

theorem jsIncludes_of_data_nil (s q : String) (h : q.data = []) : jsIncludes s q = true := by
  unfold jsIncludes
  rw [h]
  exact decide_eq_true List.nil_infix

theorem jsToLower_empty_data : (jsToLower "").data = [] := rfl

theorem tabMatches_lower_empty (t : TabEntry) : tabMatches (jsToLower "") t = true := by
  unfold tabMatches
  rw [jsIncludes_of_data_nil _ _ jsToLower_empty_data]
  rfl

theorem filterTabs_empty_query (cache : List TabEntry) : filterTabs "" cache = cache :=
  List.filter_eq_self.mpr (fun t _ => tabMatches_lower_empty t)

theorem mem_mapClosedFrom {e : TabEntry} :
    ∀ (i : Nat) (rs : List ClosedTabRecord), e ∈ mapClosedFrom i rs →
      ∃ j r, rs.get? j = some r ∧ e = closedTabEntryOf (i + j) r := by
  intro i rs
  induction rs generalizing i with
  | nil => intro h; cases h
  | cons r rs ih =>
    intro h
    rcases List.mem_cons.mp h with h | h
    · refine ⟨0, r, rfl, ?_⟩
      rw [h, Nat.add_zero]
    · rcases ih (i + 1) h with ⟨j, r', hget, he⟩
      refine ⟨j + 1, r', hget, ?_⟩
      rw [he]
      congr 1
      omega

theorem length_mapClosedFrom : ∀ (i : Nat) (rs : List ClosedTabRecord),
    (mapClosedFrom i rs).length = rs.length := by
  intro i rs
  induction rs generalizing i with
  | nil => rfl
  | cons r rs ih => simpa [mapClosedFrom] using ih (i + 1)

theorem mem_closedTabEntries {e : TabEntry} {records : List ClosedTabRecord}
    (h : e ∈ closedTabEntries records) :
    ∃ j r, records.get? j = some r ∧ e = closedTabEntryOf j r := by
  rw [closedTabEntries, List.mem_insertionSort] at h
  rcases mem_mapClosedFrom 0 records h with ⟨j, r, hget, he⟩
  exact ⟨j, r, hget, by simpa using he⟩

theorem length_closedTabEntries (records : List ClosedTabRecord) :
    (closedTabEntries records).length = records.length := by
  rw [closedTabEntries, (List.perm_insertionSort closedDesc _).length_eq]
  exact length_mapClosedFrom 0 records

theorem closedTabEntryOf_isClosed (i : Nat) (r : ClosedTabRecord) :
    (closedTabEntryOf i r).isClosed = true := rfl

theorem closedTabEntries_isClosed {records : List ClosedTabRecord} :
    ∀ e ∈ closedTabEntries records, e.isClosed = true := by
  intro e he
  rcases mem_closedTabEntries he with ⟨j, r, _, rfl⟩
  rfl

theorem getRecentlyClosedTabs_isClosed {env : SessionStoreEnv} :
    ∀ e ∈ getRecentlyClosedTabs env, e.isClosed = true := by
  intro e he
  unfold getRecentlyClosedTabs getRecentlyClosedTabsTry at he
  by_cases h1 : env.getAvailable
  · by_cases h2 : env.getThrows
    · simp [h1, h2] at he
    · rw [if_pos h1, if_neg h2] at he
      exact closedTabEntries_isClosed e he
  · simp [h1] at he

theorem openTabEntry_isClosed (env : OpenTabsEnv) (t : OpenTab) :
    (openTabEntry env t).isClosed = false := rfl

theorem getOpenTabs_isClosed {env : OpenTabsEnv} :
    ∀ e ∈ getOpenTabs env, e.isClosed = false := by
  intro e he
  unfold getOpenTabs at he
  by_cases h1 : env.enumThrows
  · simp [h1] at he
  · rw [if_neg h1] at he
    rcases List.mem_filterMap.mp he with ⟨t, _, hf⟩
    by_cases h2 : t.zenEmptyTab || t.closing
    · simp [h2] at hf
    · rw [if_neg h2] at hf
      cases hf
      rfl

theorem filter_closed_split {c o : List TabEntry}
    (hc : ∀ e ∈ c, e.isClosed = true) (ho : ∀ e ∈ o, e.isClosed = false) :
    (c ++ o).filter (fun t => t.isClosed) = c ∧
      (c ++ o).filter (fun t => !t.isClosed) = o := by
  constructor
  · rw [List.filter_append, List.filter_eq_self.mpr hc,
      List.filter_eq_nil_iff.mpr (fun e he => by simp [ho e he]), List.append_nil]
  · rw [List.filter_append, List.filter_eq_nil_iff.mpr (fun e he => by simp [hc e he]),
      List.filter_eq_self.mpr (fun e he => by simp [ho e he]), List.nil_append]

/-- Claim C2: an entry survives `_filterTabs(Q)` exactly when it was in the
cached list and the lowercased query is a substring of its lowercased title,
url, workspace name, or folder path, each read as the empty string when
absent; and the filter step never writes the stored cache. -/
theorem filterTabs_membership :
    ∀ (q : String) (cache : List TabEntry) (e : TabEntry),
      (e ∈ filterTabs q cache ↔
        e ∈ cache ∧
          ((jsToLower q).data <:+: (jsToLower (e.title.getD "")).data ∨
           (jsToLower q).data <:+: (jsToLower (e.url.getD "")).data ∨
           (jsToLower q).data <:+: (jsToLower (e.workspace.getD "")).data ∨
           (jsToLower q).data <:+: (jsToLower (e.folder.getD "")).data)) ∧
      ∀ st : PanelState, (filterStep q st).cache = st.cache := by
  intro q cache e
  constructor
  · rw [filterTabs, List.mem_filter]
    unfold tabMatches jsIncludes
    simp only [Bool.or_eq_true, decide_eq_true_eq]
    tauto
  · intro st
    rfl

/-- Claim C3: with the show-open-tabs flag on, a catalog built from the two
sources answers the empty query with exactly the N closed entries followed by
the M open entries, in built order, and the re-rendered rows keep that
closed-then-open order. -/
theorem populate_empty_query_full_list :
    ∀ (envC : SessionStoreEnv) (envO : OpenTabsEnv),
      filterTabs "" (populatePanel envC envO true).cache =
          getRecentlyClosedTabs envC ++ getOpenTabs envO ∧
        (filterTabs "" (populatePanel envC envO true).cache).length =
          (getRecentlyClosedTabs envC).length + (getOpenTabs envO).length ∧
        (filterStep "" (populatePanel envC envO true)).rows =
          markFirstItem (renderRows (getRecentlyClosedTabs envC ++ getOpenTabs envO)) := by
  intro envC envO
  have hcache : (populatePanel envC envO true).cache =
      getRecentlyClosedTabs envC ++ getOpenTabs envO := rfl
  have hq : filterTabs "" (populatePanel envC envO true).cache =
      getRecentlyClosedTabs envC ++ getOpenTabs envO := by
    rw [filterTabs_empty_query, hcache]
  refine ⟨hq, by rw [hq, List.length_append], ?_⟩
  have hsplit := filter_closed_split (c := getRecentlyClosedTabs envC)
    (o := getOpenTabs envO) getRecentlyClosedTabs_isClosed getOpenTabs_isClosed
  show markFirstItem (renderRows
      ((filterTabs "" (populatePanel envC envO true).cache).filter (fun t => t.isClosed) ++
        (filterTabs "" (populatePanel envC envO true).cache).filter (fun t => !t.isClosed))) = _
  rw [hq, hsplit.1, hsplit.2]

/-- Closed-tab record of the spec scenario with url `https://a.test`. -/
def demoRecordA : ClosedTabRecord :=
  { closedAt := 100, state := { entries := [{ url := some "https://a.test" }] } }

/-- Closed-tab record of the spec scenario with url `https://b.test`. -/
def demoRecordB : ClosedTabRecord :=
  { closedAt := 200, state := { entries := [{ url := some "https://b.test" }] } }

/-- Claim C5: `getRecentlyClosedTabs` yields one closed-variant entry per
stored record, ordered newest-first by `closedAt`; on the two-record
scenario the `https://b.test` entry (closedAt 200) precedes the
`https://a.test` entry (closedAt 100). -/
theorem closed_entries_newest_first :
    (∀ records : List ClosedTabRecord,
        (closedTabEntries records).length = records.length ∧
          (∀ e ∈ closedTabEntries records, e.isClosed = true) ∧
          List.Pairwise closedDesc (closedTabEntries records)) ∧
      (closedTabEntries [demoRecordA, demoRecordB]).map TabEntry.url =
        [some "https://b.test", some "https://a.test"] := by
  refine ⟨fun records =>
    ⟨length_closedTabEntries records, closedTabEntries_isClosed, ?_⟩, by decide⟩
  exact List.sorted_insertionSort closedDesc _

theorem closed_entries_newest_first_witness :
    (closedTabEntryOf 1 demoRecordB).isClosed = true :=
  (closed_entries_newest_first.1 [demoRecordA, demoRecordB]).2.1
    (closedTabEntryOf 1 demoRecordB) (by decide)

/-- Session-store environment whose `getClosedTabData` call throws. -/
def demoEnvClosedThrows : SessionStoreEnv := { getThrows := true }

/-- Open-tab environment whose enumeration throws. -/
def demoEnvOpenThrows : OpenTabsEnv := { enumThrows := true }

/-- Claim C6: when the closed-tab store is missing or throws, or the
open-tab enumeration throws, the fetchers return the empty list for that
source instead of propagating the exception. -/
theorem fetch_fails_soft :
    ∀ (envC : SessionStoreEnv) (envO : OpenTabsEnv),
      ((envC.getAvailable = false ∨ envC.getThrows = true) →
          getRecentlyClosedTabs envC = []) ∧
        (envO.enumThrows = true → getOpenTabs envO = []) := by
  intro envC envO
  constructor
  · intro h
    unfold getRecentlyClosedTabs getRecentlyClosedTabsTry
    cases hA : envC.getAvailable <;> cases hT : envC.getThrows <;> simp_all
  · intro h
    unfold getOpenTabs
    simp [h]

theorem fetch_fails_soft_witness :
    getRecentlyClosedTabs demoEnvClosedThrows = [] ∧
      getOpenTabs demoEnvOpenThrows = [] :=
  ⟨(fetch_fails_soft demoEnvClosedThrows demoEnvOpenThrows).1 (Or.inr rfl),
   (fetch_fails_soft demoEnvClosedThrows demoEnvOpenThrows).2 rfl⟩

/-- Claim C10: each closed-variant entry carries as `sessionIndex` the
position its record occupied in the store's list at build time (assigned
before the newest-first sort) together with that very record as
`sessionData`, and `removeClosedTab` forgets exactly that store slot. -/
theorem session_index_targets_store_slot :
    (∀ (records : List ClosedTabRecord) (e : TabEntry),
        e ∈ closedTabEntries records →
          ∃ i r, e.sessionIndex = some i ∧ records.get? i = some r ∧
            e.sessionData = some r) ∧
      ∀ (env : SessionStoreEnv) (i : Nat),
        env.forgetAvailable = true → env.forgetThrows = false →
          removeClosedTabEffects env (some i) = [Effect.forgetClosedTab (some i)] := by
  constructor
  · intro records e he
    rcases mem_closedTabEntries he with ⟨j, r, hget, rfl⟩
    exact ⟨j, r, rfl, hget, rfl⟩
  · intro env i h1 h2
    unfold removeClosedTabEffects
    rw [if_pos h1, if_neg (by simp [h2])]

theorem session_index_targets_store_slot_witness :
    ∃ i r, (closedTabEntryOf 0 demoRecordA).sessionIndex = some i ∧
      [demoRecordA].get? i = some r ∧
      (closedTabEntryOf 0 demoRecordA).sessionData = some r :=
  session_index_targets_store_slot.1 [demoRecordA]
    (closedTabEntryOf 0 demoRecordA) (by decide)

theorem count_filter_ne {e : TabEntry} :
    ∀ l : List TabEntry, List.count e l = 1 →
      (l.filter (fun t => decide (t ≠ e))).length + 1 = l.length := by
  intro l
  induction l with
  | nil => intro h; simp at h
  | cons a l ih =>
    intro h
    by_cases ha : a = e
    · subst ha
      rw [List.count_cons_self] at h
      have hnot : a ∉ l := List.count_eq_zero.mp (by omega)
      have hself : l.filter (fun t => decide (t ≠ a)) = l :=
        List.filter_eq_self.mpr (fun t ht => by
          simp only [decide_eq_true_eq]
          exact fun hc => hnot (hc ▸ ht))
      rw [show List.filter (fun t => decide (t ≠ a)) (a :: l) =
            List.filter (fun t => decide (t ≠ a)) l from by
          simp [List.filter_cons]]
      rw [hself, List.length_cons]
    · have hne : e ≠ a := fun hc => ha hc.symm
      rw [List.count_cons_of_ne hne] at h
      rw [show List.filter (fun t => decide (t ≠ e)) (a :: l) =
            a :: List.filter (fun t => decide (t ≠ e)) l from by
          simp [List.filter_cons, ha]]
      have := ih h
      simp only [List.length_cons]
      omega

/-- Claim C9: dismissing a closed entry present once shrinks the cache by
exactly one, dismissal is idempotent, and dismissing an open-variant entry
or an absent entry leaves the cache untouched. -/
theorem remove_entry_catalog :
    ∀ (cache : List TabEntry) (e : TabEntry),
      (e.isClosed = true → List.count e cache = 1 →
          (handleRemoveTab cache e).length + 1 = cache.length) ∧
        handleRemoveTab (handleRemoveTab cache e) e = handleRemoveTab cache e ∧
        (e.isClosed = false → handleRemoveTab cache e = cache) ∧
        (e ∉ cache → handleRemoveTab cache e = cache) := by
  intro cache e
  refine ⟨?_, ?_, ?_, ?_⟩
  · intro hc hcount
    unfold handleRemoveTab
    rw [if_pos hc]
    exact count_filter_ne cache hcount
  · unfold handleRemoveTab
    by_cases hc : e.isClosed
    · rw [if_pos hc, if_pos hc, List.filter_filter]
      simp
    · rw [if_neg hc, if_neg hc]
  · intro hc
    unfold handleRemoveTab
    rw [if_neg (by simp [hc])]
  · intro hmem
    unfold handleRemoveTab
    by_cases hc : e.isClosed
    · rw [if_pos hc, List.filter_eq_self.mpr]
      intro t ht
      simp only [decide_eq_true_eq]
      exact fun hte => hmem (hte ▸ ht)
    · rw [if_neg hc]

/-- The closed entry used by concrete dismissal witnesses. -/
def demoClosedEntry : TabEntry := closedTabEntryOf 0 demoRecordA

theorem remove_entry_catalog_witness :
    (handleRemoveTab [demoClosedEntry] demoClosedEntry).length + 1 =
      [demoClosedEntry].length :=
  (remove_entry_catalog [demoClosedEntry] demoClosedEntry).1 (by decide) (by decide)

theorem reopenTabTry_closed (env : ReopenEnv) (td : TabEntry) (sd : ClosedTabRecord)
    (h1 : td.isClosed = true) (h2 : td.sessionData = some sd) :
    reopenTabTry env td = closedRestore env td sd := by
  obtain ⟨u, t, ic, sdd, si, fv, ca, ip, ie, ws, fo, te, la⟩ := td
  dsimp only at h1 h2
  subst h1 h2
  rfl

theorem reopenTab_eq_of_try_ok (env : ReopenEnv) (td : TabEntry) (es : List Effect)
    (h : reopenTabTry env td = (es, false)) : reopenTab env td = es := by
  unfold reopenTab
  rw [h]

theorem reopenTab_eq_of_try_throw (env : ReopenEnv) (td : TabEntry) (es : List Effect)
    (h : reopenTabTry env td = (es, true)) :
    reopenTab env td = es ++ [Effect.logError] := by
  unfold reopenTab
  rw [h]


theorem closedRestore_no_url (env : ReopenEnv) (td : TabEntry) (sd : ClosedTabRecord)
    (h : (sd.state.entries.head?).bind HistoryEntry.url = none) :
    closedRestore env td sd = ([Effect.logError], false) := by
  simp only [closedRestore, h]

theorem wsStep_no_throw (env : ReopenEnv) (ts : TabState)
    (h1 : env.changeWorkspaceThrows = false) (h2 : env.moveTabThrows = false) :
    (wsStep env ts).2 = false ∧
      ∀ x ∈ (wsStep env ts).1,
        ∃ w, x = Effect.changeWorkspace w ∨ x = Effect.moveTabToWorkspace w := by
  rcases hz : ts.zenWorkspace with _ | wid
  · simp [wsStep, hz]
  · by_cases hw : wid = ""
    · simp [wsStep, hz, hw]
    · by_cases ha : env.activeWorkspace = some wid
      · simp [wsStep, hz, hw, ha]
      · refine ⟨?_, ?_⟩
        · simp [wsStep, hz, hw, ha, h1, h2, seqStep, primCall]
        · intro x hx
          simp [wsStep, hz, hw, ha, h1, h2, seqStep, primCall] at hx
          rcases hx with rfl | rfl
          · exact ⟨wid, Or.inl rfl⟩
          · exact ⟨wid, Or.inr rfl⟩

theorem wsStep_throw (env : ReopenEnv) (ts : TabState) (w : String)
    (hz : ts.zenWorkspace = some w) (hw : w ≠ "")
    (ha : env.activeWorkspace ≠ some w) (hC : env.changeWorkspaceThrows = true) :
    wsStep env ts = ([], true) := by
  simp [wsStep, hz, hw, ha, hC, seqStep, primCall]

theorem pinStep_no_throw (env : ReopenEnv) (ts : TabState)
    (h : env.pinTabThrows = false) :
    (pinStep env ts).2 = false ∧ ∀ x ∈ (pinStep env ts).1, x = Effect.pinTab := by
  by_cases hp : ts.pinned
  · refine ⟨?_, ?_⟩
    · simp [pinStep, hp, h, primCall]
    · intro x hx
      simp [pinStep, hp, h, primCall] at hx
      exact hx
  · simp [pinStep, hp]

theorem folderStep_no_throw (env : ReopenEnv) (sd : ClosedTabRecord)
    (h : env.folderAddThrows = false) :
    (folderStep env sd).2 = false ∧
      ∀ x ∈ (folderStep env sd).1, ∃ g, x = Effect.addTabsToFolder g := by
  rcases hg : sd.closedInTabGroupId with _ | gid
  · simp [folderStep, hg]
  · by_cases hne : gid = ""
    · simp [folderStep, hg, hne]
    · rcases hf : lookupFolder env.folders gid with _ | b
      · simp [folderStep, hg, hne, hf]
      · cases b
        · simp [folderStep, hg, hne, hf]
        · refine ⟨?_, ?_⟩
          · simp [folderStep, hg, hne, hf, h, primCall]
          · intro x hx
            simp [folderStep, hg, hne, hf, h, primCall] at hx
            exact ⟨gid, hx⟩

theorem folderStep_found (env : ReopenEnv) (sd : ClosedTabRecord) (gid : String)
    (h : env.folderAddThrows = false) (hg : sd.closedInTabGroupId = some gid)
    (hne : gid ≠ "") (hf : lookupFolder env.folders gid = some true) :
    folderStep env sd = ([Effect.addTabsToFolder gid], false) := by
  simp [folderStep, hg, hne, hf, h, primCall]

theorem folderStep_missing (env : ReopenEnv) (sd : ClosedTabRecord) (gid : String)
    (hg : sd.closedInTabGroupId = some gid)
    (hf : lookupFolder env.folders gid = none) :
    folderStep env sd = ([], false) := by
  by_cases hne : gid = ""
  · simp [folderStep, hg, hne]
  · simp [folderStep, hg, hne, hf]

theorem removeClosedTabEffects_ok (env : SessionStoreEnv) (si : Option Nat)
    (h1 : env.forgetAvailable = true) (h2 : env.forgetThrows = false) :
    removeClosedTabEffects env si = [Effect.forgetClosedTab si] := by
  unfold removeClosedTabEffects
  rw [if_pos h1, if_neg (by simp [h2])]

theorem closedRestore_ok (env : ReopenEnv) (td : TabEntry) (sd : ClosedTabRecord)
    (u : String)
    (hurl : (sd.state.entries.head?).bind HistoryEntry.url = some u) (hu : u ≠ "")
    (hA : env.addTabThrows = false) (hC : env.changeWorkspaceThrows = false)
    (hM : env.moveTabThrows = false) (hP : env.pinTabThrows = false)
    (hF : env.folderAddThrows = false) :
    closedRestore env td sd =
      ([Effect.addTab u (sd.state.userContextId.getD 0), Effect.selectTab] ++
        removeClosedTabEffects env.session td.sessionIndex ++
        (wsStep env sd.state).1 ++ (pinStep env sd.state).1 ++
        (folderStep env sd).1 ++ [Effect.selectTab], false) := by
  have hws := (wsStep_no_throw env sd.state hC hM).1
  have hpin := (pinStep_no_throw env sd.state hP).1
  have hfold := (folderStep_no_throw env sd hF).1
  rcases hw : wsStep env sd.state with ⟨wes, wb⟩
  rcases hp : pinStep env sd.state with ⟨pes, pb⟩
  rcases hf : folderStep env sd with ⟨fes, fb⟩
  rw [hw] at hws
  rw [hp] at hpin
  rw [hf] at hfold
  dsimp only at hws hpin hfold
  subst hws hpin hfold
  simp [closedRestore, hurl, hu, hA, hw, hp, hf, seqStep, primCall, List.append_assoc]

theorem wsStep_move_throw (env : ReopenEnv) (ts : TabState) (w : String)
    (hz : ts.zenWorkspace = some w) (hw : w ≠ "")
    (ha : env.activeWorkspace ≠ some w) (hC : env.changeWorkspaceThrows = false)
    (hM : env.moveTabThrows = true) :
    wsStep env ts = ([Effect.changeWorkspace w], true) := by
  simp [wsStep, hz, hw, ha, hC, hM, seqStep, primCall]

theorem pinStep_throw (env : ReopenEnv) (ts : TabState)
    (hp : ts.pinned = true) (hP : env.pinTabThrows = true) :
    pinStep env ts = ([], true) := by
  simp [pinStep, hp, hP, primCall]

theorem folderStep_throw (env : ReopenEnv) (sd : ClosedTabRecord) (gid : String)
    (hg : sd.closedInTabGroupId = some gid) (hne : gid ≠ "")
    (hf : lookupFolder env.folders gid = some true)
    (hF : env.folderAddThrows = true) :
    folderStep env sd = ([], true) := by
  simp [folderStep, hg, hne, hf, hF, primCall]

theorem closedRestore_throw_at_ws (env : ReopenEnv) (td : TabEntry)
    (sd : ClosedTabRecord) (u : String) (wes : List Effect)
    (hurl : (sd.state.entries.head?).bind HistoryEntry.url = some u) (hu : u ≠ "")
    (hA : env.addTabThrows = false)
    (hws : wsStep env sd.state = (wes, true)) :
    closedRestore env td sd =
      ([Effect.addTab u (sd.state.userContextId.getD 0), Effect.selectTab] ++
        removeClosedTabEffects env.session td.sessionIndex ++ wes, true) := by
  simp [closedRestore, hurl, hu, hA, hws, seqStep, primCall, List.append_assoc]

theorem closedRestore_throw_at_pin (env : ReopenEnv) (td : TabEntry)
    (sd : ClosedTabRecord) (u : String) (wes : List Effect)
    (hurl : (sd.state.entries.head?).bind HistoryEntry.url = some u) (hu : u ≠ "")
    (hA : env.addTabThrows = false)
    (hws : wsStep env sd.state = (wes, false))
    (hp : pinStep env sd.state = ([], true)) :
    closedRestore env td sd =
      ([Effect.addTab u (sd.state.userContextId.getD 0), Effect.selectTab] ++
        removeClosedTabEffects env.session td.sessionIndex ++ wes, true) := by
  simp [closedRestore, hurl, hu, hA, hws, hp, seqStep, primCall, List.append_assoc]

theorem closedRestore_throw_at_folder (env : ReopenEnv) (td : TabEntry)
    (sd : ClosedTabRecord) (u : String) (wes pes : List Effect)
    (hurl : (sd.state.entries.head?).bind HistoryEntry.url = some u) (hu : u ≠ "")
    (hA : env.addTabThrows = false)
    (hws : wsStep env sd.state = (wes, false))
    (hp : pinStep env sd.state = (pes, false))
    (hf : folderStep env sd = ([], true)) :
    closedRestore env td sd =
      ([Effect.addTab u (sd.state.userContextId.getD 0), Effect.selectTab] ++
        removeClosedTabEffects env.session td.sessionIndex ++ wes ++ pes, true) := by
  simp [closedRestore, hurl, hu, hA, hws, hp, hf, seqStep, primCall,
    List.append_assoc]

/-- Claim C7: restoring a closed entry whose session record has no
`entries[0].url` performs no tab creation and no closed-store removal — the
whole restore reduces to one logged recoverable error, and `reopenTab` never
touches the catalog or popup state at all. -/
theorem reopen_missing_url_aborts :
    ∀ (env : ReopenEnv) (td : TabEntry) (sd : ClosedTabRecord),
      td.isClosed = true → td.sessionData = some sd →
      (sd.state.entries.head?).bind HistoryEntry.url = none →
      reopenTab env td = [Effect.logError] := by
  intro env td sd h1 h2 h3
  exact reopenTab_eq_of_try_ok env td _
    (by rw [reopenTabTry_closed env td sd h1 h2, closedRestore_no_url env td sd h3])

/-- Closed-tab record with an empty history (no `entries[0].url`). -/
def demoNoUrlRecord : ClosedTabRecord := { closedAt := 5 }

theorem reopen_missing_url_aborts_witness :
    reopenTab {} (closedTabEntryOf 0 demoNoUrlRecord) = [Effect.logError] :=
  reopen_missing_url_aborts {} (closedTabEntryOf 0 demoNoUrlRecord) demoNoUrlRecord
    rfl rfl rfl

/-- Claim C8: when the closed record carries a folder-group id, the restore
re-adds the new tab to that folder if the folder element still exists (with
an `addTabs` function), and skips silently — no folder call, no logged
error — when the folder no longer exists. -/
theorem reopen_folder_readd :
    ∀ (env : ReopenEnv) (td : TabEntry) (sd : ClosedTabRecord) (u gid : String),
      td.isClosed = true → td.sessionData = some sd →
      (sd.state.entries.head?).bind HistoryEntry.url = some u → u ≠ "" →
      sd.closedInTabGroupId = some gid → gid ≠ "" →
      env.addTabThrows = false → env.changeWorkspaceThrows = false →
      env.moveTabThrows = false → env.pinTabThrows = false →
      env.folderAddThrows = false →
      env.session.forgetAvailable = true → env.session.forgetThrows = false →
      ((lookupFolder env.folders gid = some true →
          Effect.addTabsToFolder gid ∈ reopenTab env td) ∧
        (lookupFolder env.folders gid = none →
          (∀ g, Effect.addTabsToFolder g ∉ reopenTab env td) ∧
            Effect.logError ∉ reopenTab env td)) := by
  intro env td sd u gid h1 h2 hurl hu hg hgne hA hC hM hP hF hFA hFT
  have hrem := removeClosedTabEffects_ok env.session td.sessionIndex hFA hFT
  have hmain : reopenTab env td =
      [Effect.addTab u (sd.state.userContextId.getD 0), Effect.selectTab] ++
        removeClosedTabEffects env.session td.sessionIndex ++
        (wsStep env sd.state).1 ++ (pinStep env sd.state).1 ++
        (folderStep env sd).1 ++ [Effect.selectTab] :=
    reopenTab_eq_of_try_ok env td _
      (by rw [reopenTabTry_closed env td sd h1 h2,
          closedRestore_ok env td sd u hurl hu hA hC hM hP hF])
  have hws2 := (wsStep_no_throw env sd.state hC hM).2
  have hpin2 := (pinStep_no_throw env sd.state hP).2
  constructor
  · intro hf
    rw [hmain, folderStep_found env sd gid hF hg hgne hf]
    simp [List.mem_append]
  · intro hf
    have hfm : (folderStep env sd).1 = [] := by
      rw [folderStep_missing env sd gid hg hf]
    constructor
    · intro g hmem
      rw [hmain, hfm, hrem] at hmem
      simp only [List.append_nil, List.mem_append, List.mem_cons,
        List.not_mem_nil, List.mem_singleton, or_false] at hmem
      rcases hmem with ((((h | h) | h) | h) | h) | h
      · cases h
      · cases h
      · cases h
      · rcases hws2 _ h with ⟨w2, hw2 | hw2⟩ <;> cases hw2
      · have := hpin2 _ h
        cases this
      · cases h
    · intro hmem
      rw [hmain, hfm, hrem] at hmem
      simp only [List.append_nil, List.mem_append, List.mem_cons,
        List.not_mem_nil, List.mem_singleton, or_false] at hmem
      rcases hmem with ((((h | h) | h) | h) | h) | h
      · cases h
      · cases h
      · cases h
      · rcases hws2 _ h with ⟨w2, hw2 | hw2⟩ <;> cases hw2
      · have := hpin2 _ h
        cases this
      · cases h

/-- Folder element the concrete witness restores into. -/
def demoFolderEnv : ReopenEnv := { folders := [("g1", true)] }

/-- Closed record whose tab was inside folder `g1` at close time. -/
def demoFolderRecord : ClosedTabRecord :=
  { closedAt := 7, closedInTabGroupId := some "g1"
    state := { entries := [{ url := some "https://x.test" }] } }

theorem reopen_folder_readd_witness :
    Effect.addTabsToFolder "g1" ∈
      reopenTab demoFolderEnv (closedTabEntryOf 0 demoFolderRecord) :=
  (reopen_folder_readd demoFolderEnv (closedTabEntryOf 0 demoFolderRecord)
      demoFolderRecord "https://x.test" "g1" rfl rfl rfl (by decide) rfl (by decide)
      rfl rfl rfl rfl rfl rfl rfl).1 rfl

/-- Closed record of the C1 scenario: `pinned:true`, `zenWorkspace:"W2"`. -/
def demoPinnedW2Record : ClosedTabRecord :=
  { closedAt := 100
    state := { entries := [{ url := some "https://x.test" }], pinned := true,
               zenWorkspace := some "W2" } }

/-- The closed-variant entry built from that record. -/
def demoPinnedW2Entry : TabEntry := closedTabEntryOf 0 demoPinnedW2Record

/-- Environment of the C1 scenario: active workspace `"W1"` and a throwing
`changeWorkspaceWithID` call. -/
def demoWsThrowEnv : ReopenEnv :=
  { activeWorkspace := some "W1", changeWorkspaceThrows := true }

/-- Claim C1 counterexample: restoring the `pinned:true, zenWorkspace:"W2"`
entry while `"W1"` is active, with the workspace switch throwing, never
attempts the pin step and performs only the one initial activation — the
single surrounding try/catch aborts the remaining steps instead of running
each of them independently. -/
theorem reopen_secondary_steps_not_independent :
    Effect.pinTab ∉ reopenTab demoWsThrowEnv demoPinnedW2Entry ∧
      (reopenTab demoWsThrowEnv demoPinnedW2Entry).count Effect.selectTab = 1 := by
  decide

/-- Claim C1 (amended): whichever single secondary restore step throws —
workspace switch, move into workspace, pin, or folder re-add — the
exception is caught by the one try/catch wrapping the whole of `reopenTab`
and logged, never propagated; the steps already performed (tab creation,
initial activation, closed-store removal, and any secondary steps before
the throwing one) stand and are not rolled back, but the steps after the
throwing one, including the final re-activation, are skipped rather than
attempted. Each of the four throwing steps is characterised by the exact
trace it leaves. -/
theorem reopen_secondary_throw_caught :
    ∀ (env : ReopenEnv) (td : TabEntry) (sd : ClosedTabRecord) (u : String),
      td.isClosed = true → td.sessionData = some sd →
      (sd.state.entries.head?).bind HistoryEntry.url = some u → u ≠ "" →
      env.addTabThrows = false →
      ((∀ w : String, sd.state.zenWorkspace = some w → w ≠ "" →
          env.activeWorkspace ≠ some w → env.changeWorkspaceThrows = true →
          reopenTab env td =
            [Effect.addTab u (sd.state.userContextId.getD 0), Effect.selectTab] ++
              removeClosedTabEffects env.session td.sessionIndex ++
              [Effect.logError]) ∧
        (∀ w : String, sd.state.zenWorkspace = some w → w ≠ "" →
          env.activeWorkspace ≠ some w → env.changeWorkspaceThrows = false →
          env.moveTabThrows = true →
          reopenTab env td =
            [Effect.addTab u (sd.state.userContextId.getD 0), Effect.selectTab] ++
              removeClosedTabEffects env.session td.sessionIndex ++
              [Effect.changeWorkspace w] ++ [Effect.logError]) ∧
        (sd.state.pinned = true → env.changeWorkspaceThrows = false →
          env.moveTabThrows = false → env.pinTabThrows = true →
          reopenTab env td =
            [Effect.addTab u (sd.state.userContextId.getD 0), Effect.selectTab] ++
              removeClosedTabEffects env.session td.sessionIndex ++
              (wsStep env sd.state).1 ++ [Effect.logError]) ∧
        (∀ gid : String, sd.closedInTabGroupId = some gid → gid ≠ "" →
          lookupFolder env.folders gid = some true →
          env.changeWorkspaceThrows = false → env.moveTabThrows = false →
          env.pinTabThrows = false → env.folderAddThrows = true →
          reopenTab env td =
            [Effect.addTab u (sd.state.userContextId.getD 0), Effect.selectTab] ++
              removeClosedTabEffects env.session td.sessionIndex ++
              (wsStep env sd.state).1 ++ (pinStep env sd.state).1 ++
              [Effect.logError])) := by
  intro env td sd u h1 h2 hurl hu hA
  refine ⟨?_, ?_, ?_, ?_⟩
  · intro w hz hwne ha hC
    have := reopenTab_eq_of_try_throw env td _
      (by rw [reopenTabTry_closed env td sd h1 h2,
          closedRestore_throw_at_ws env td sd u [] hurl hu hA
            (wsStep_throw env sd.state w hz hwne ha hC)])
    rw [this]
    simp [List.append_assoc]
  · intro w hz hwne ha hC hM
    have := reopenTab_eq_of_try_throw env td _
      (by rw [reopenTabTry_closed env td sd h1 h2,
          closedRestore_throw_at_ws env td sd u [Effect.changeWorkspace w] hurl hu hA
            (wsStep_move_throw env sd.state w hz hwne ha hC hM)])
    rw [this]
  · intro hpin hC hM hP
    rcases hw : wsStep env sd.state with ⟨wes, wb⟩
    have hwb := (wsStep_no_throw env sd.state hC hM).1
    rw [hw] at hwb
    dsimp only at hwb
    subst hwb
    have := reopenTab_eq_of_try_throw env td _
      (by rw [reopenTabTry_closed env td sd h1 h2,
          closedRestore_throw_at_pin env td sd u wes hurl hu hA hw
            (pinStep_throw env sd.state hpin hP)])
    rw [this]
  · intro gid hg hgne hf hC hM hP hF
    rcases hw : wsStep env sd.state with ⟨wes, wb⟩
    have hwb := (wsStep_no_throw env sd.state hC hM).1
    rw [hw] at hwb
    dsimp only at hwb
    subst hwb
    rcases hp : pinStep env sd.state with ⟨pes, pb⟩
    have hpb := (pinStep_no_throw env sd.state hP).1
    rw [hp] at hpb
    dsimp only at hpb
    subst hpb
    have := reopenTab_eq_of_try_throw env td _
      (by rw [reopenTabTry_closed env td sd h1 h2,
          closedRestore_throw_at_folder env td sd u wes pes hurl hu hA hw hp
            (folderStep_throw env sd gid hg hgne hf hF)])
    rw [this]

/-- Closed record whose tab was pinned, with no workspace recorded. -/
def demoPinnedRecord : ClosedTabRecord :=
  { closedAt := 9
    state := { entries := [{ url := some "https://x.test" }], pinned := true } }

/-- The closed-variant entry built from the pinned record. -/
def demoPinnedEntry : TabEntry := closedTabEntryOf 0 demoPinnedRecord

/-- Environment whose `pinTab` call throws. -/
def demoPinThrowEnv : ReopenEnv := { pinTabThrows := true }

theorem reopen_secondary_throw_caught_witness :
    (reopenTab demoWsThrowEnv demoPinnedW2Entry =
        [Effect.addTab "https://x.test" 0, Effect.selectTab] ++
          removeClosedTabEffects demoWsThrowEnv.session demoPinnedW2Entry.sessionIndex ++
          [Effect.logError]) ∧
      reopenTab demoPinThrowEnv demoPinnedEntry =
        [Effect.addTab "https://x.test" 0, Effect.selectTab] ++
          removeClosedTabEffects demoPinThrowEnv.session demoPinnedEntry.sessionIndex ++
          (wsStep demoPinThrowEnv demoPinnedRecord.state).1 ++ [Effect.logError] :=
  ⟨(reopen_secondary_throw_caught demoWsThrowEnv demoPinnedW2Entry demoPinnedW2Record
      "https://x.test" rfl rfl rfl (by decide) rfl).1 "W2" rfl (by decide)
      (by decide) rfl,
   (reopen_secondary_throw_caught demoPinThrowEnv demoPinnedEntry demoPinnedRecord
      "https://x.test" rfl rfl rfl (by decide) rfl).2.2.1 rfl rfl rfl rfl⟩

theorem findSelectedIdxAux_unmarked (t : TabEntry) (B : List (TabEntry × Bool)) :
    ∀ (A : List (TabEntry × Bool)) (k : Nat), (∀ r ∈ A, r.2 = false) →
      findSelectedIdxAux k (A ++ (t, true) :: B) = some (k + A.length) := by
  intro A
  induction A with
  | nil =>
    intro k _
    simp [findSelectedIdxAux]
  | cons a A ih =>
    intro k hA
    have ha : a.2 = false := hA a (List.mem_cons_self a A)
    simp only [List.cons_append, findSelectedIdxAux, ha, Bool.false_eq_true, if_false,
      List.append_eq]
    rw [ih (k + 1) (fun r hr => hA r (List.mem_cons_of_mem a hr))]
    simp only [List.length_cons]
    congr 1
    omega

theorem findSelectedIdx_decomp (A B : List (TabEntry × Bool)) (t : TabEntry)
    (hA : ∀ r ∈ A, r.2 = false) :
    findSelectedIdx (A ++ (t, true) :: B) = some A.length := by
  unfold findSelectedIdx
  rw [findSelectedIdxAux_unmarked t B A 0 hA, Nat.zero_add]

theorem setMarkL_append (b : Bool) (C : List (TabEntry × Bool)) :
    ∀ (A : List (TabEntry × Bool)) (m : Nat),
      setMarkL b (A.length + m) (A ++ C) = A ++ setMarkL b m C := by
  intro A
  induction A with
  | nil =>
    intro m
    simp
  | cons a A ih =>
    intro m
    have hlen : (a :: A).length + m = (A.length + m) + 1 := by
      simp only [List.length_cons]
      omega
    rw [hlen]
    simp only [List.cons_append, setMarkL, List.append_eq]
    rw [ih m]

theorem setMark_false_decomp (A B : List (TabEntry × Bool)) (t : TabEntry) (b' : Bool) :
    setMarkL b' A.length (A ++ (t, true) :: B) = A ++ (t, b') :: B := by
  have h := setMarkL_append b' ((t, true) :: B) A 0
  rw [Nat.add_zero] at h
  rw [h]
  rfl

theorem setMarkL_map_fst (b : Bool) :
    ∀ (i : Nat) (rows : List (TabEntry × Bool)),
      (setMarkL b i rows).map Prod.fst = rows.map Prod.fst := by
  intro i rows
  induction rows generalizing i with
  | nil => cases i <;> rfl
  | cons r rs ih =>
    cases i with
    | zero => simp [setMarkL]
    | succ n => simp [setMarkL, ih n]

theorem markedCount_append (A C : List (TabEntry × Bool)) :
    markedCount (A ++ C) = markedCount A + markedCount C := by
  simp [markedCount, List.filter_append]

theorem markedCount_zero (A : List (TabEntry × Bool)) (h : ∀ r ∈ A, r.2 = false) :
    markedCount A = 0 := by
  simp only [markedCount]
  rw [List.filter_eq_nil_iff.mpr (fun r hr => by simp [h r hr])]
  rfl

theorem markedCount_cons_true (t : TabEntry) (rest : List (TabEntry × Bool)) :
    markedCount ((t, true) :: rest) = markedCount rest + 1 := by
  simp only [markedCount, List.filter_cons]
  simp

theorem markedCount_cons_false (t : TabEntry) (rest : List (TabEntry × Bool)) :
    markedCount ((t, false) :: rest) = markedCount rest := by
  simp only [markedCount, List.filter_cons]
  simp

theorem handleNavKeydown_map_fst (key : NavKey) (rows : List (TabEntry × Bool)) :
    (handleNavKeydown key rows).map Prod.fst = rows.map Prod.fst := by
  simp only [handleNavKeydown]
  cases hc : findSelectedIdx rows with
  | none =>
    cases hn : navTarget key rows.length none with
    | none => simp [hc, hn]
    | some j => simp [hc, hn, setMarkL_map_fst]
  | some i =>
    cases hn : navTarget key rows.length (some i) with
    | none => simp [hc, hn, setMarkL_map_fst]
    | some j => simp [hc, hn, setMarkL_map_fst]

theorem handleNavKeydown_decomp (key : NavKey) (A B : List (TabEntry × Bool))
    (t : TabEntry) (hA : ∀ r ∈ A, r.2 = false) :
    handleNavKeydown key (A ++ (t, true) :: B) =
      match navTarget key (A ++ (t, true) :: B).length (some A.length) with
      | some j => setMarkL true j (A ++ (t, false) :: B)
      | none => A ++ (t, false) :: B := by
  simp only [handleNavKeydown, findSelectedIdx_decomp A B t hA, setMark_false_decomp]

theorem nav_down_spec (A B : List (TabEntry × Bool)) (t : TabEntry)
    (hA : ∀ r ∈ A, r.2 = false) (hB : ∀ r ∈ B, r.2 = false) :
    markedCount (handleNavKeydown .down (A ++ (t, true) :: B)) = 1 ∧
      findSelectedIdx (handleNavKeydown .down (A ++ (t, true) :: B)) =
        some (if A.length + 1 < (A ++ (t, true) :: B).length then A.length + 1 else 0) := by
  rw [handleNavKeydown_decomp .down A B t hA]
  cases B with
  | nil =>
    have hnav : navTarget .down (A ++ (t, true) :: []).length (some A.length) =
        some 0 := by
      simp only [navTarget, List.length_append, List.length_cons, List.length_nil]
      rw [if_neg (by omega), if_pos (by omega)]
    rw [hnav]
    dsimp only
    rw [show (if A.length + 1 < (A ++ (t, true) :: []).length then A.length + 1 else 0) =
          0 from by
        rw [if_neg]
        simp only [List.length_append, List.length_cons, List.length_nil]
        omega]
    cases A with
    | nil =>
      constructor
      · simp [setMarkL, markedCount]
      · simp [setMarkL, findSelectedIdx, findSelectedIdxAux]
    | cons a A' =>
      have hA' : ∀ r ∈ A' ++ [(t, false)], r.2 = false := by
        intro r hr
        rcases List.mem_append.mp hr with h | h
        · exact hA r (List.mem_cons_of_mem a h)
        · rw [List.mem_singleton] at h
          rw [h]
      have hres : setMarkL true 0 ((a :: A') ++ (t, false) :: []) =
          (a.1, true) :: (A' ++ [(t, false)]) := by
        simp [setMarkL]
      rw [hres]
      constructor
      · rw [markedCount_cons_true, markedCount_zero _ hA']
      · simp [findSelectedIdx, findSelectedIdxAux]
  | cons b B' =>
    have hnav : navTarget .down (A ++ (t, true) :: b :: B').length (some A.length) =
        some (A.length + 1) := by
      simp only [navTarget, List.length_append, List.length_cons]
      rw [if_pos (by omega)]
    rw [hnav]
    dsimp only
    rw [show (if A.length + 1 < (A ++ (t, true) :: b :: B').length
          then A.length + 1 else 0) = A.length + 1 from by
        rw [if_pos]
        simp only [List.length_append, List.length_cons]
        omega]
    have hres : setMarkL true (A.length + 1) (A ++ (t, false) :: b :: B') =
        (A ++ [(t, false)]) ++ (b.1, true) :: B' := by
      have h1 : A ++ (t, false) :: b :: B' = (A ++ [(t, false)]) ++ b :: B' := by simp
      have h2 : A.length + 1 = (A ++ [(t, false)]).length + 0 := by simp
      rw [h1, h2, setMarkL_append]
      rfl
    rw [hres]
    have hAt : ∀ r ∈ A ++ [(t, false)], r.2 = false := by
      intro r hr
      rcases List.mem_append.mp hr with h | h
      · exact hA r h
      · rw [List.mem_singleton] at h
        rw [h]
    constructor
    · rw [markedCount_append, markedCount_zero _ hAt, markedCount_cons_true,
        markedCount_zero B' (fun r hr => hB r (List.mem_cons_of_mem b hr))]
    · rw [findSelectedIdx_decomp _ _ _ hAt]
      simp [List.length_append]

theorem nav_up_spec (A B : List (TabEntry × Bool)) (t : TabEntry)
    (hA : ∀ r ∈ A, r.2 = false) (hB : ∀ r ∈ B, r.2 = false) :
    markedCount (handleNavKeydown .up (A ++ (t, true) :: B)) = 1 ∧
      findSelectedIdx (handleNavKeydown .up (A ++ (t, true) :: B)) =
        some (if A.length = 0 then (A ++ (t, true) :: B).length - 1
              else A.length - 1) := by
  rw [handleNavKeydown_decomp .up A B t hA]
  rcases A.eq_nil_or_concat with rfl | ⟨A0, aL, rfl⟩
  · rcases B.eq_nil_or_concat with rfl | ⟨B0, bL, rfl⟩
    · have hnav : navTarget .up ([] ++ (t, true) :: []).length
          (some (List.length ([] : List (TabEntry × Bool)))) = some 0 := by
        simp only [navTarget, List.nil_append, List.length_cons, List.length_nil]
        rw [if_neg (by omega), if_pos (by omega)]
      rw [hnav]
      dsimp only
      constructor
      · simp [setMarkL, markedCount]
      · simp [setMarkL, findSelectedIdx, findSelectedIdxAux]
    · simp only [List.concat_eq_append] at hB ⊢
      have hnav : navTarget .up ([] ++ (t, true) :: (B0 ++ [bL])).length
          (some (List.length ([] : List (TabEntry × Bool)))) = some (B0.length + 1) := by
        simp only [navTarget, List.nil_append, List.length_cons, List.length_nil,
          List.length_append]
        rw [if_neg (by omega), if_pos (by omega)]
        congr 1
      rw [hnav]
      dsimp only
      have hres : setMarkL true (B0.length + 1) ([] ++ (t, false) :: (B0 ++ [bL])) =
          ((t, false) :: B0) ++ (bL.1, true) :: [] := by
        have hform : ([] : List (TabEntry × Bool)) ++ (t, false) :: (B0 ++ [bL]) =
            ((t, false) :: B0) ++ [bL] := by simp
        have hlen : B0.length + 1 = ((t, false) :: B0).length + 0 := by simp
        rw [hform, hlen, setMarkL_append]
        rfl
      rw [hres]
      have hunm : ∀ r ∈ (t, false) :: B0, r.2 = false := by
        intro r hr
        rcases List.mem_cons.mp hr with rfl | hr
        · rfl
        · exact hB r (List.mem_append_left [bL] hr)
      constructor
      · rw [markedCount_append, markedCount_zero _ hunm, markedCount_cons_true]
        rfl
      · rw [findSelectedIdx_decomp _ _ _ hunm]
        simp only [List.length_cons, List.nil_append, List.length_nil,
          List.length_append, if_pos rfl]
        congr 1
  · simp only [List.concat_eq_append] at hA ⊢
    have haL : aL.2 = false :=
      hA aL (List.mem_append_right A0 (List.mem_singleton.mpr rfl))
    have hA0 : ∀ r ∈ A0, r.2 = false := fun r hr => hA r (List.mem_append_left _ hr)
    have hnav : navTarget .up ((A0 ++ [aL]) ++ (t, true) :: B).length
        (some (A0 ++ [aL]).length) = some A0.length := by
      simp only [navTarget, List.length_append, List.length_cons, List.length_nil]
      rw [if_pos (by constructor <;> omega)]
      congr 1
    rw [hnav]
    dsimp only
    have hres : setMarkL true A0.length ((A0 ++ [aL]) ++ (t, false) :: B) =
        A0 ++ (aL.1, true) :: (t, false) :: B := by
      have hform : (A0 ++ [aL]) ++ (t, false) :: B =
          A0 ++ aL :: (t, false) :: B := by simp
      have hlen : A0.length = A0.length + 0 := rfl
      rw [hform, hlen, setMarkL_append]
      rfl
    rw [hres]
    constructor
    · rw [markedCount_append, markedCount_zero _ hA0, markedCount_cons_true,
        markedCount_cons_false, markedCount_zero _ hB]
    · rw [findSelectedIdx_decomp _ _ _ hA0]
      rw [if_neg (by simp [List.length_append])]
      simp only [List.length_append, List.length_cons, List.length_nil]
      congr 1

/-- A plain rendered row used by concrete navigation witnesses. -/
def demoRow : TabEntry := {}

/-- Claim C4: in a rendered list with exactly one selected row (any unmarked
rows `A` before it and `B` after it), ArrowDown moves the selection to the
next row and wraps from the last row to the first, ArrowUp moves it to the
previous row and wraps from the first row to the last, exactly one row
carries the `selected` marker after every move, and navigation reorders or
drops no rows. -/
theorem nav_cyclic_single_selection :
    ∀ (A B : List (TabEntry × Bool)) (t : TabEntry),
      (∀ r ∈ A, r.2 = false) → (∀ r ∈ B, r.2 = false) →
      (markedCount (A ++ (t, true) :: B) = 1 ∧
          findSelectedIdx (A ++ (t, true) :: B) = some A.length) ∧
        (markedCount (handleNavKeydown .down (A ++ (t, true) :: B)) = 1 ∧
          findSelectedIdx (handleNavKeydown .down (A ++ (t, true) :: B)) =
            some (if A.length + 1 < (A ++ (t, true) :: B).length then A.length + 1
                  else 0)) ∧
        (markedCount (handleNavKeydown .up (A ++ (t, true) :: B)) = 1 ∧
          findSelectedIdx (handleNavKeydown .up (A ++ (t, true) :: B)) =
            some (if A.length = 0 then (A ++ (t, true) :: B).length - 1
                  else A.length - 1)) ∧
        (handleNavKeydown .down (A ++ (t, true) :: B)).map Prod.fst =
            (A ++ (t, true) :: B).map Prod.fst ∧
          (handleNavKeydown .up (A ++ (t, true) :: B)).map Prod.fst =
            (A ++ (t, true) :: B).map Prod.fst := by
  intro A B t hA hB
  refine ⟨⟨?_, findSelectedIdx_decomp A B t hA⟩, nav_down_spec A B t hA hB,
    nav_up_spec A B t hA hB, handleNavKeydown_map_fst .down _,
    handleNavKeydown_map_fst .up _⟩
  rw [markedCount_append, markedCount_zero _ hA, markedCount_cons_true,
    markedCount_zero _ hB]

theorem nav_cyclic_single_selection_witness :
    findSelectedIdx (handleNavKeydown .down
        ([(demoRow, false)] ++ (demoRow, true) :: [(demoRow, false)])) = some 2 :=
  ((nav_cyclic_single_selection [(demoRow, false)] [(demoRow, false)] demoRow
      (by decide) (by decide)).2.1).2
